import Mathlib

/-!
Shallow embedding of the eur-weather application (the cache-enabled version
of the script, which is the current one in the repository).

Numeric rates are modelled by `ℚ`.  JavaScript division by zero produces
`Infinity`, `-Infinity` or `NaN`; the type `JVal` represents the value of the
expression `(currentRate - avgRate) / avgRate` including those non-finite
outcomes, with the IEEE comparison semantics (every comparison against `NaN`
is false).  Wall-clock times (`Date.now()`) are milliseconds as `ℕ` and are
passed explicitly to the cache operations.
-/

/-- Threshold constant `THRESHOLD_SUNNY = 0.01` from the source. -/
def THRESHOLD_SUNNY : ℚ := 1 / 100

/-- Threshold constant `THRESHOLD_RAINY = -0.01` from the source. -/
def THRESHOLD_RAINY : ℚ := -(1 / 100)

/-- Cache freshness window `CACHE_DURATION = 10 * 60 * 1000` ms. -/
def CACHE_DURATION : ℕ := 10 * 60 * 1000

/-- The JavaScript number produced by `(currentRate - avgRate) / avgRate`:
either a finite rational, `Infinity`, `-Infinity` or `NaN`. -/
inductive JVal where
  | fin (q : ℚ)
  | posInf
  | negInf
  | nan
deriving DecidableEq

/-- JavaScript semantics of `(current - avg) / avg`: ordinary rational
division when `avg ≠ 0`; for `avg = 0` the numerator is `current`, so the
result is `Infinity` when `current > 0`, `-Infinity` when `current < 0`
and `NaN` (`0/0`) when `current = 0`. -/
def jsDiff (current avg : ℚ) : JVal :=
  if avg = 0 then
    if 0 < current then JVal.posInf
    else if current < 0 then JVal.negInf
    else JVal.nan
  else JVal.fin ((current - avg) / avg)

/-- IEEE `>=` against a finite constant (`NaN >= c` is false). -/
def JVal.geQ : JVal → ℚ → Bool
  | JVal.fin q, c => decide (c ≤ q)
  | JVal.posInf, _ => true
  | JVal.negInf, _ => false
  | JVal.nan, _ => false

/-- IEEE `<=` against a finite constant (`NaN <= c` is false). -/
def JVal.leQ : JVal → ℚ → Bool
  | JVal.fin q, c => decide (q ≤ c)
  | JVal.posInf, _ => false
  | JVal.negInf, _ => true
  | JVal.nan, _ => false

/-- Embedding of `determineWeather(currentRate, avgRate)`:
`difference = (currentRate - avgRate) / avgRate`; `"sunny"` when
`difference >= THRESHOLD_SUNNY`, `"rainy"` when
`difference <= THRESHOLD_RAINY`, otherwise `"cloudy"`. -/
def determineWeather (currentRate avgRate : ℚ) : String :=
  let difference := jsDiff currentRate avgRate
  if difference.geQ THRESHOLD_SUNNY then "sunny"
  else if difference.leQ THRESHOLD_RAINY then "rainy"
  else "cloudy"

/-- Embedding of `calculateAverage(rates)` (cache-enabled version): returns
`0` for an empty array, otherwise `rates.reduce((acc, val) => acc + val, 0)`
divided by `rates.length`. -/
def calculateAverage (rates : List ℚ) : ℚ :=
  if rates.length = 0 then 0
  else rates.foldl (· + ·) 0 / rates.length

/-- A JSON-serialisable payload stored in the cache: the applications cache
either a current rate (a number), a historical series (an array of numbers),
or whatever else the fetch function produced — in particular `null`. -/
inductive JSData where
  | null
  | num (q : ℚ)
  | series (rs : List ℚ)
deriving DecidableEq

/-- The `localStorage` contents relevant to the cache: an association of
string keys to a stored `{data, timestamp}` entry (at most one live entry
per key; `setItem` overwrites). -/
abbrev Store := List (String × JSData × ℕ)

/-- Lookup of the entry stored under `key` (models `localStorage.getItem`
plus `JSON.parse`). -/
def lookupStore (key : String) (st : Store) : Option (JSData × ℕ) :=
  List.lookup key st

/-- Removal of the entry stored under `key`
(models `localStorage.removeItem`). -/
def eraseStore (key : String) (st : Store) : Store :=
  st.filter (fun e => e.1 != key)

/-- Embedding of `getCachedData(key)` at wall-clock time `now`: a missing
entry yields `null`; a present entry is returned unchanged while
`now - timestamp < CACHE_DURATION`, and otherwise is removed and `null` is
returned.  The function returns the read result together with the store
after any eviction. -/
def getCachedData (now : ℕ) (key : String) (st : Store) : JSData × Store :=
  match lookupStore key st with
  | none => (JSData.null, st)
  | some (d, ts) =>
      if now - ts < CACHE_DURATION then (d, st)
      else (JSData.null, eraseStore key st)

/-- Embedding of `setCachedData(key, data)` at wall-clock time `now`:
overwrites any entry for `key` with `{data, timestamp: now}`. -/
def setCachedData (now : ℕ) (key : String) (d : JSData) (st : Store) : Store :=
  (key, d, now) :: eraseStore key st

/-- Embedding of `fetchWithCache(cacheKey, fetchFunction)` at time `now`.
The value the fetch function would produce is passed as `fetchResult`.
Returns the produced payload, the store afterwards, and whether the fetch
function was invoked: the cached value is returned (without fetching) iff
`getCachedData` produced something `!== null`; otherwise the fetch result
is stored and returned. -/
def fetchWithCache (now : ℕ) (key : String) (fetchResult : JSData)
    (st : Store) : JSData × Store × Bool :=
  let c := getCachedData now key st
  if c.1 ≠ JSData.null then (c.1, c.2, false)
  else (fetchResult, setCachedData now key fetchResult c.2, true)

/-- Repeated invocations of `fetchWithCache` for one key at the given list
of wall-clock times, threading the store and counting how many times the
fetch function was invoked. -/
def fetchCalls (times : List ℕ) (key : String) (r : JSData) (st : Store) :
    Store × ℕ :=
  match times with
  | [] => (st, 0)
  | t :: rest =>
      let c := fetchWithCache t key r st
      let done := fetchCalls rest key r c.2.1
      (done.1, (if c.2.2 then 1 else 0) + done.2)

/-- A parsed JSON value, as produced by `response.json()`. -/
inductive JSON where
  | null
  | bool (b : Bool)
  | num (q : ℚ)
  | str (s : String)
  | arr (elems : List JSON)
  | obj (fields : List (String × JSON))

/-- JavaScript truthiness of a parsed JSON value (`!v` is the negation of
this): `null`, `false`, `0` and `""` are falsy; objects and arrays are
always truthy. -/
def jsTruthy : JSON → Bool
  | JSON.null => false
  | JSON.bool b => b
  | JSON.num q => decide (q ≠ 0)
  | JSON.str s => s ≠ ""
  | JSON.arr _ => true
  | JSON.obj _ => true

/-- Whether `typeof v === 'object'` holds for a parsed JSON value: true for
objects, arrays and `null`, false for numbers, strings and booleans. -/
def typeofObject : JSON → Bool
  | JSON.null => true
  | JSON.arr _ => true
  | JSON.obj _ => true
  | _ => false

/-- Property access `v[name]` for a non-numeric property name on a parsed
JSON value: a field lookup on objects, `undefined` (`none`) everywhere
else (string keys such as `"rates"` or `"EUR"` are not array indices). -/
def getField (v : JSON) (name : String) : Option JSON :=
  match v with
  | JSON.obj fields => List.lookup name fields
  | _ => none

/-- The outcome of an HTTP fetch as the code observes it: `failure` covers a
non-success status (`!response.ok`), an unparseable body (`response.json()`
throwing) and a thrown network exception; `success data` is a parsed JSON
payload. -/
inductive FetchOutcome where
  | failure
  | success (data : JSON)

/-- Per-day body of the extraction loop of `fetchHistoricalRates`: the day is
skipped (`none`) when `dayRates` is falsy or not `typeof 'object'`, or when
`dayRates[targetCurrency]` is not a number; otherwise its numeric rate is
produced. -/
def dayValue (target : String) (dayRates : JSON) : Option ℚ :=
  if !(jsTruthy dayRates) || !(typeofObject dayRates) then none
  else
    match getField dayRates target with
    | some (JSON.num q) => some q
    | _ => none

/-- The `for (const date in data.rates)` extraction loop of
`fetchHistoricalRates`, pushing the surviving days in enumeration order.
`for..in` over an array enumerates its indices, so array elements are
treated like object field values. -/
def extractRates (rates : JSON) (target : String) : List ℚ :=
  match rates with
  | JSON.obj fields => fields.filterMap (fun f => dayValue target f.2)
  | JSON.arr elems => elems.filterMap (fun e => dayValue target e)
  | _ => []

/-- Embedding of `fetchHistoricalRates` (cache-enabled version), as a
function of the fetch outcome: any failure yields `[]`; on success the
response shape is validated (`!data || typeof data !== 'object' ||
!data.rates || typeof data.rates !== 'object'` yields the still-empty
`rates` array) and the surviving per-day values are extracted. -/
def fetchHistoricalRates (resp : FetchOutcome) (target : String) : List ℚ :=
  match resp with
  | FetchOutcome.failure => []
  | FetchOutcome.success data =>
      if !(jsTruthy data) || !(typeofObject data) then []
      else
        match getField data "rates" with
        | none => []
        | some rates =>
            if !(jsTruthy rates) || !(typeofObject rates) then []
            else extractRates rates target

/-- Embedding of `fetchCurrentRate`, as a function of the fetch outcome:
a failed transport or parse throws (`Except.error`); on success the code
returns `data.rates[targetCurrency]`, which throws when `data.rates` is
`undefined` or `null` (the thrown `TypeError` is caught and rethrown) and
otherwise evaluates to the stored field or `undefined` (`none`). -/
def fetchCurrentRate (resp : FetchOutcome) (target : String) :
    Except Unit (Option JSON) :=
  match resp with
  | FetchOutcome.failure => Except.error ()
  | FetchOutcome.success data =>
      match getField data "rates" with
      | none => Except.error ()
      | some rates =>
          match rates with
          | JSON.null => Except.error ()
          | JSON.obj fields => Except.ok (List.lookup target fields)
          | _ => Except.ok none

/-- The CSS state classes `updateCurrencyDisplay` leaves on the difference
element: `positive`, `negative`, or neither. -/
inductive StateTag where
  | positive
  | negative
  | neutral
deriving DecidableEq

/-- The display-ready fields `updateCurrencyDisplay` writes into the DOM for
one currency pair (the randomly selected comment is not modelled). -/
structure DisplayFields where
  icon : String
  rateText : String
  diffText : String
  tag : StateTag
deriving DecidableEq

/-- The icon glyph of `WEATHER[weatherType].icon`. -/
def weatherIcon (weatherType : String) : String :=
  if weatherType = "sunny" then "☀️"
  else if weatherType = "cloudy" then "⛅"
  else if weatherType = "rainy" then "🌧️"
  else ""

/-- Idealised `Number.prototype.toFixed(d)` on an exact rational: the sign
is taken from the argument, and the magnitude is the integer closest to
`|q| * 10^d`, ties resolved upward, printed with `d` fractional digits. -/
def toFixedQ (d : ℕ) (q : ℚ) : String :=
  let n : ℕ := (Int.floor (|q| * (10 ^ d : ℚ) + 1 / 2)).toNat
  let ip := n / 10 ^ d
  let fp := n % 10 ^ d
  let fpStr := toString fp
  let pad := String.mk (List.replicate (d - fpStr.length) '0')
  (if q < 0 then "-" else "") ++ toString ip ++
    (if d = 0 then "" else "." ++ pad ++ fpStr)

/-- Embedding of `updateCurrencyDisplay(prefix, rate, avgRate, weatherType)`
(cache-enabled version), returning the fields it writes: the JPY pair shows
the inverted rate `1 / rate` (unless `rate = 0`) with 2 decimals, other
pairs the raw rate with 4 decimals; the percentage difference is computed
from the raw rates, shown as `N/A` with neither state class when
`avgRate === 0`, and otherwise as `(difference / avgRate) * 100` to two
decimals with a leading `+` when `difference >= 0`. -/
def updateCurrencyDisplay (pfx : String) (rate avgRate : ℚ)
    (weatherType : String) : DisplayFields :=
  let displayRate := if pfx = "jpy" ∧ rate ≠ 0 then 1 / rate else rate
  let currencySymbol := if pfx = "jpy" then " [💴/💶]" else " [💶/💵]"
  let rateText :=
    toFixedQ (if pfx = "jpy" then 2 else 4) displayRate ++ currencySymbol
  if avgRate = 0 then
    { icon := weatherIcon weatherType, rateText := rateText,
      diffText := "N/A", tag := StateTag.neutral }
  else
    let difference := rate - avgRate
    let percentDiff := toFixedQ 2 (difference / avgRate * 100)
    let sign := if 0 ≤ difference then "+" else ""
    { icon := weatherIcon weatherType, rateText := rateText,
      diffText := sign ++ percentDiff ++ "%",
      tag :=
        if 0 < difference then StateTag.positive
        else if difference < 0 then StateTag.negative
        else StateTag.neutral }

/-- The outcome of one refresh cycle of `initApp`: either the error view is
shown (`error`) or the content view with both pairs' display fields
(`ready`). -/
inductive AppOutcome where
  | error
  | ready (jpy usd : DisplayFields)
deriving DecidableEq

/-- Embedding of `initApp` (cache-enabled version), as a function of the
four awaited results.  A current-rate fetch that throws rejects the
`Promise.all`, so the `catch` branch shows the error view; historical
fetches never throw and arrive as plain series.  Otherwise each empty
historical series is replaced by `[currentRate]`, averages and weather are
computed, and both pairs' display fields are rendered. -/
def initApp (jpyRate : Except Unit ℚ) (jpyHistorical : List ℚ)
    (usdRate : Except Unit ℚ) (usdHistorical : List ℚ) : AppOutcome :=
  match jpyRate, usdRate with
  | Except.ok jr, Except.ok ur =>
      let jpyHistForAvg :=
        if jpyHistorical.length > 0 then jpyHistorical else [jr]
      let usdHistForAvg :=
        if usdHistorical.length > 0 then usdHistorical else [ur]
      let jpyAvg := calculateAverage jpyHistForAvg
      let usdAvg := calculateAverage usdHistForAvg
      let jpyWeather := determineWeather jr jpyAvg
      let usdWeather := determineWeather ur usdAvg
      AppOutcome.ready
        (updateCurrencyDisplay "jpy" jr jpyAvg jpyWeather)
        (updateCurrencyDisplay "usd" ur usdAvg usdWeather)
  | _, _ => AppOutcome.error

/-! ### Supporting lemmas -/

/-- For a nonzero average the weather is a plain three-way comparison of the
finite difference ratio against the two thresholds. -/
theorem determineWeather_eq_of_ne (c a : ℚ) (ha : a ≠ 0) :
    determineWeather c a =
      if 1 / 100 ≤ (c - a) / a then "sunny"
      else if (c - a) / a ≤ -(1 / 100) then "rainy"
      else "cloudy" := by
  simp [determineWeather, jsDiff, ha, JVal.geQ, JVal.leQ, THRESHOLD_SUNNY,
    THRESHOLD_RAINY]

/-- Folding addition from an accumulator sums the list. -/
theorem foldl_add_eq_sum (l : List ℚ) (a : ℚ) :
    l.foldl (· + ·) a = a + l.sum := by
  induction l generalizing a with
  | nil => simp
  | cons x xs ih => simp [ih, add_assoc]

/-! ### Claims -/

/-- C1: for every current rate and nonzero average, `determineWeather`
returns `"sunny"` iff `d = (current - average) / average` is at least
`0.01`, `"rainy"` iff `d` is at most `-0.01`, and `"cloudy"` otherwise,
with both thresholds inclusive. -/
theorem c1_classify_thresholds (c a : ℚ) (ha : a ≠ 0) :
    (determineWeather c a = "sunny" ↔ 1 / 100 ≤ (c - a) / a) ∧
    (determineWeather c a = "rainy" ↔ (c - a) / a ≤ -(1 / 100)) ∧
    (determineWeather c a = "cloudy" ↔
      (-(1 / 100) < (c - a) / a ∧ (c - a) / a < 1 / 100)) := by
  rw [determineWeather_eq_of_ne c a ha]
  split_ifs with h1 h2
  · refine ⟨⟨fun _ => h1, fun _ => rfl⟩, ?_, ?_⟩
    · exact ⟨fun h => absurd h (by decide),
        fun h => absurd (h1.trans h) (by norm_num)⟩
    · exact ⟨fun h => absurd h (by decide),
        fun h => absurd h1 (not_le.mpr h.2)⟩
  · refine ⟨?_, ⟨fun _ => h2, fun _ => rfl⟩, ?_⟩
    · exact ⟨fun h => absurd h (by decide), fun h => absurd h h1⟩
    · exact ⟨fun h => absurd h (by decide),
        fun h => absurd h2 (not_le.mpr h.1)⟩
  · refine ⟨?_, ?_, ?_⟩
    · exact ⟨fun h => absurd h (by decide), fun h => absurd h h1⟩
    · exact ⟨fun h => absurd h (by decide), fun h => absurd h h2⟩
    · exact ⟨fun _ => ⟨lt_of_not_le h2, lt_of_not_le h1⟩, fun _ => rfl⟩

/-- C1 witness: at `d` exactly `+0.01` the result is `"sunny"` and at `d`
exactly `-0.01` it is `"rainy"` (inclusive thresholds). -/
theorem c1_classify_thresholds_witness :
    determineWeather (101 / 100) 1 = "sunny" ∧
    determineWeather (99 / 100) 1 = "rainy" :=
  ⟨(c1_classify_thresholds (101 / 100) 1 (by norm_num)).1.mpr (by norm_num),
   (c1_classify_thresholds (99 / 100) 1 (by norm_num)).2.1.mpr (by norm_num)⟩

/-- C2: `calculateAverage` of an empty series is `0`, of a nonempty series
is the arithmetic mean, hence a single-element series averages to its
element, and the result is invariant under any permutation of the input. -/
theorem c2_average_mean :
    calculateAverage [] = 0 ∧
    (∀ r : ℚ, calculateAverage [r] = r) ∧
    (∀ l : List ℚ, l ≠ [] → calculateAverage l = l.sum / l.length) ∧
    (∀ l l' : List ℚ, l.Perm l' → calculateAverage l = calculateAverage l') := by
  have hmean : ∀ l : List ℚ, l ≠ [] → calculateAverage l = l.sum / l.length := by
    intro l hl
    have hlen : l.length ≠ 0 := fun h => hl (List.length_eq_zero.mp h)
    simp [calculateAverage, hlen, foldl_add_eq_sum]
  refine ⟨by simp [calculateAverage], ?_, hmean, ?_⟩
  · intro r
    rw [hmean [r] (by simp)]
    simp
  · intro l l' hp
    rcases eq_or_ne l [] with rfl | hl
    · rw [hp.symm.eq_nil]
    · have hl' : l' ≠ [] := fun h => hl (by rw [h] at hp; exact hp.eq_nil)
      rw [hmean l hl, hmean l' hl', hp.sum_eq, hp.length_eq]

/-- C2 witness: the mean of a concrete nonempty series and invariance under
a concrete reordering. -/
theorem c2_average_mean_witness :
    calculateAverage [(3 : ℚ), 5] = [(3 : ℚ), 5].sum / ([(3 : ℚ), 5].length) ∧
    calculateAverage [(3 : ℚ), 5] = calculateAverage [(5 : ℚ), 3] :=
  ⟨c2_average_mean.2.2.1 [(3 : ℚ), 5] (by simp),
   c2_average_mean.2.2.2 [(3 : ℚ), 5] [(5 : ℚ), 3] (List.Perm.swap 5 3 [])⟩

/-- C3: at a zero average the code does not apply a fixed fallback value:
the JavaScript division yields `Infinity`, `-Infinity` or `NaN`, and the
comparisons against the thresholds then classify a positive current rate
as `"sunny"`, a negative one as `"rainy"`, and only a zero one as
`"cloudy"` — the undefined division result is propagated into the
comparisons rather than replaced by a documented fallback. -/
theorem c3_zero_average_not_fixed :
    determineWeather 1 0 = "sunny" ∧
    determineWeather (-1) 0 = "rainy" ∧
    determineWeather 0 0 = "cloudy" ∧
    determineWeather 1 0 ≠ determineWeather (-1) 0 := by decide

/-! ### Cache lemmas -/

/-- A freshly written entry is found under its key with its timestamp. -/
theorem lookupStore_setCachedData_self (t : ℕ) (k : String) (v : JSData)
    (st : Store) : lookupStore k (setCachedData t k v st) = some (v, t) := by
  simp [lookupStore, setCachedData, List.lookup]

/-- After removal no entry remains under the key. -/
theorem lookupStore_eraseStore_self (k : String) (st : Store) :
    lookupStore k (eraseStore k st) = none := by
  induction st with
  | nil => rfl
  | cons e st ih =>
      rcases e with ⟨k', p⟩
      by_cases h : k' = k
      · subst h
        simpa [eraseStore, List.filter_cons] using ih
      · have h1 : (k' != k) = true := bne_iff_ne.mpr h
        have h2 : (k == k') = false := beq_eq_false_iff_ne.mpr (Ne.symm h)
        simp only [eraseStore, List.filter_cons, h1, if_true, lookupStore,
          List.lookup, h2]
        exact ih

/-- Reading a key with no entry returns `null` and leaves the store alone. -/
theorem getCachedData_not_found (t : ℕ) (k : String) (st : Store)
    (h : lookupStore k st = none) : getCachedData t k st = (JSData.null, st) := by
  simp [getCachedData, h]

/-- Reading a fresh entry returns it and leaves the store alone. -/
theorem getCachedData_fresh (t ts : ℕ) (k : String) (d : JSData) (st : Store)
    (h1 : lookupStore k st = some (d, ts)) (h2 : t - ts < CACHE_DURATION) :
    getCachedData t k st = (d, st) := by
  simp [getCachedData, h1, h2]

/-- Reading an entry whose age reached the window evicts it and returns
`null`. -/
theorem getCachedData_stale (t ts : ℕ) (k : String) (d : JSData) (st : Store)
    (h1 : lookupStore k st = some (d, ts)) (h2 : ¬t - ts < CACHE_DURATION) :
    getCachedData t k st = (JSData.null, eraseStore k st) := by
  simp [getCachedData, h1, h2]

/-- A read that produces a non-`null` payload leaves the store unchanged. -/
theorem getCachedData_hit_store (t : ℕ) (k : String) (st : Store)
    (h : (getCachedData t k st).1 ≠ JSData.null) :
    getCachedData t k st = ((getCachedData t k st).1, st) := by
  rcases hl : lookupStore k st with _ | ⟨d, ts⟩
  · rw [getCachedData_not_found t k st hl] at h
    exact absurd rfl h
  · by_cases h2 : t - ts < CACHE_DURATION
    · rw [getCachedData_fresh t ts k d st hl h2]
    · rw [getCachedData_stale t ts k d st hl h2] at h
      exact absurd rfl h

/-- A fresh non-`null` entry is served without invoking the fetch
function. -/
theorem fetchWithCache_hit (t ts : ℕ) (k : String) (d r : JSData) (st : Store)
    (h1 : lookupStore k st = some (d, ts)) (hd : d ≠ JSData.null)
    (h2 : t - ts < CACHE_DURATION) :
    fetchWithCache t k r st = (d, st, false) := by
  simp [fetchWithCache, getCachedData_fresh t ts k d st h1 h2, hd]

/-- When the cache read produces `null` the fetch function is invoked and
its result stored. -/
theorem fetchWithCache_miss (t : ℕ) (k : String) (r : JSData) (st : Store)
    (h : (getCachedData t k st).1 = JSData.null) :
    fetchWithCache t k r st =
      (r, setCachedData t k r (getCachedData t k st).2, true) := by
  simp [fetchWithCache, h]

/-- While a non-`null` entry written at `tf` stays fresh, any number of
further `fetchWithCache` calls serve it and never invoke the fetch
function. -/
theorem fetchCalls_all_cached (times : List ℕ) (k : String) (r : JSData)
    (st : Store) (tf : ℕ) (hr : r ≠ JSData.null)
    (hlook : lookupStore k st = some (r, tf))
    (hts : ∀ t ∈ times, t - tf < CACHE_DURATION) :
    fetchCalls times k r st = (st, 0) := by
  induction times with
  | nil => rfl
  | cons t rest ih =>
      have hw := fetchWithCache_hit t tf k r r st hlook hr (hts t (by simp))
      have hrest := ih (fun t' ht' => hts t' (List.mem_cons_of_mem t ht'))
      simp [fetchCalls, hw, hrest]

/-! ### Claims about the cache -/

/-- C4: writing `v` under `k` at time `t` and reading immediately returns
`v` unchanged; a read once the entry's age reaches `CACHE_DURATION`
(600000 ms) returns `null` (absent) and evicts the entry, and any
subsequent read still returns `null` — the evicted entry is not
resurrected. -/
theorem c4_cache_roundtrip_expiry (k : String) (v : JSData) (st : Store)
    (t te ts : ℕ) (h : CACHE_DURATION ≤ te - t) :
    (getCachedData t k (setCachedData t k v st)).1 = v ∧
    (getCachedData te k (setCachedData t k v st)).1 = JSData.null ∧
    lookupStore k (getCachedData te k (setCachedData t k v st)).2 = none ∧
    (getCachedData ts k (getCachedData te k (setCachedData t k v st)).2).1
      = JSData.null := by
  have hset := lookupStore_setCachedData_self t k v st
  have hfresh : t - t < CACHE_DURATION := by rw [Nat.sub_self]; decide
  have hstale : ¬te - t < CACHE_DURATION := not_lt.mpr h
  refine ⟨?_, ?_, ?_, ?_⟩
  · rw [getCachedData_fresh t t k v _ hset hfresh]
  · rw [getCachedData_stale te t k v _ hset hstale]
  · rw [getCachedData_stale te t k v _ hset hstale]
    exact lookupStore_eraseStore_self k _
  · rw [getCachedData_stale te t k v _ hset hstale,
      getCachedData_not_found ts k _ (lookupStore_eraseStore_self k _)]

/-- C4 witness: a concrete round trip at time 0 with expiry read at exactly
600000 ms. -/
theorem c4_cache_roundtrip_expiry_witness :
    (getCachedData 0 "jpy-current"
        (setCachedData 0 "jpy-current" (JSData.num 155) [])).1
      = JSData.num 155 ∧
    (getCachedData 600000 "jpy-current"
        (setCachedData 0 "jpy-current" (JSData.num 155) [])).1
      = JSData.null :=
  ⟨(c4_cache_roundtrip_expiry "jpy-current" (JSData.num 155) [] 0 600000 700000
      (by decide)).1,
   (c4_cache_roundtrip_expiry "jpy-current" (JSData.num 155) [] 0 600000 700000
      (by decide)).2.1⟩

/-- C10: when the fetch function produces `null` on a cache miss,
`fetchWithCache` stores `null`, but any later call for that key — at any
time whatsoever, in particular within the freshness window — sees the
cached `null` as a miss, invokes the fetch function again and returns the
fresh result: a `null` payload is never served from the cache. -/
theorem c10_cached_null_is_miss (k : String) (st : Store) (t tn : ℕ)
    (r' : JSData) (hmiss : (getCachedData t k st).1 = JSData.null) :
    (fetchWithCache t k JSData.null st).2.2 = true ∧
    lookupStore k (fetchWithCache t k JSData.null st).2.1
      = some (JSData.null, t) ∧
    (fetchWithCache tn k r' (fetchWithCache t k JSData.null st).2.1).2.2
      = true ∧
    (fetchWithCache tn k r' (fetchWithCache t k JSData.null st).2.1).1
      = r' := by
  have h1 := fetchWithCache_miss t k JSData.null st hmiss
  have hlook : lookupStore k (fetchWithCache t k JSData.null st).2.1
      = some (JSData.null, t) := by
    rw [h1]
    exact lookupStore_setCachedData_self t k JSData.null _
  have hmiss2 :
      (getCachedData tn k (fetchWithCache t k JSData.null st).2.1).1
        = JSData.null := by
    by_cases h2 : tn - t < CACHE_DURATION
    · rw [getCachedData_fresh tn t k JSData.null _ hlook h2]
    · rw [getCachedData_stale tn t k JSData.null _ hlook h2]
  refine ⟨by rw [h1], hlook, ?_, ?_⟩
  · rw [fetchWithCache_miss tn k r' _ hmiss2]
  · rw [fetchWithCache_miss tn k r' _ hmiss2]

/-- C10 witness: a concrete `null` fetch at time 0 followed by a call one
millisecond later, which refetches and returns the fresh value. -/
theorem c10_cached_null_is_miss_witness :
    (fetchWithCache 1 "usd-current" (JSData.num 7)
        (fetchWithCache 0 "usd-current" JSData.null []).2.1).1
      = JSData.num 7 :=
  (c10_cached_null_is_miss "usd-current" [] 0 1 (JSData.num 7) rfl).2.2.2

/-- C5 counterexample: two `fetchWithCache` calls for the same key at times
0 and 1 ms — well inside one freshness window — each invoke the fetch
function when it returns `null`, so the fetch function is not called at
most once per key per window. -/
theorem c5_null_refetch_counterexample :
    (fetchCalls [0, 1] "jpy-historical" JSData.null []).2 = 2 ∧
    (1 : ℕ) - 0 < CACHE_DURATION := by decide

/-- A cache read that produces a non-`null` payload makes `fetchWithCache` a
pure hit: no fetch, store unchanged. -/
theorem fetchWithCache_of_hit (t : ℕ) (k : String) (r : JSData) (st : Store)
    (hc : (getCachedData t k st).1 ≠ JSData.null) :
    fetchWithCache t k r st = ((getCachedData t k st).1, st, false) := by
  have h2 : (getCachedData t k st).2 = st := by
    rw [getCachedData_hit_store t k st hc]
  simp [fetchWithCache, hc, h2]

/-- Among any sequence of `fetchWithCache` calls for one key whose times all
lie in an interval shorter than the freshness window, a non-`null` fetch
result is fetched at most once. -/
theorem fetchCalls_le_one (k : String) (r : JSData) (a b : ℕ)
    (hr : r ≠ JSData.null) (hwin : b - a < CACHE_DURATION) :
    ∀ times : List ℕ, (∀ t ∈ times, a ≤ t ∧ t ≤ b) →
      ∀ st : Store, (fetchCalls times k r st).2 ≤ 1 := by
  intro times
  induction times with
  | nil => intro _ st; simp [fetchCalls]
  | cons t rest ih =>
      intro hbound st
      have hbr : ∀ t' ∈ rest, a ≤ t' ∧ t' ≤ b :=
        fun t' ht' => hbound t' (List.mem_cons_of_mem t ht')
      by_cases hc : (getCachedData t k st).1 = JSData.null
      · have hm := fetchWithCache_miss t k r st hc
        have hlook : lookupStore k (fetchWithCache t k r st).2.1
            = some (r, t) := by
          rw [hm]
          exact lookupStore_setCachedData_self t k r _
        have hrest : fetchCalls rest k r (fetchWithCache t k r st).2.1
            = ((fetchWithCache t k r st).2.1, 0) := by
          apply fetchCalls_all_cached rest k r _ t hr hlook
          intro t' ht'
          calc t' - t ≤ b - t := Nat.sub_le_sub_right (hbr t' ht').2 t
            _ ≤ b - a :=
              Nat.sub_le_sub_left (hbound t (List.mem_cons_self t rest)).1 b
            _ < CACHE_DURATION := hwin
        rw [hm] at hrest
        simp [fetchCalls, hm, hrest]
      · have hw := fetchWithCache_of_hit t k r st hc
        simpa [fetchCalls, hw] using ih hbr st

/-- C5 (amended): provided the fetched result is not `null`, `fetchWithCache`
invokes the fetch function at most once per key among any number of calls
whose times all lie in an interval shorter than the freshness window; and
an empty series is itself stored, so a repeat call within the window
returns the cached empty series without refetching. -/
theorem c5_fetch_at_most_once (k : String) (r : JSData) (st : Store)
    (times : List ℕ) (a b : ℕ) (hr : r ≠ JSData.null)
    (hbound : ∀ t ∈ times, a ≤ t ∧ t ≤ b)
    (hwin : b - a < CACHE_DURATION) :
    (fetchCalls times k r st).2 ≤ 1 ∧
    (∀ (t tn : ℕ) (r' : JSData) (st₀ : Store),
      (getCachedData t k st₀).1 = JSData.null →
      tn - t < CACHE_DURATION →
      (fetchWithCache t k (JSData.series []) st₀).2.2 = true ∧
      (fetchWithCache tn k r'
          (fetchWithCache t k (JSData.series []) st₀).2.1).1
        = JSData.series [] ∧
      (fetchWithCache tn k r'
          (fetchWithCache t k (JSData.series []) st₀).2.1).2.2 = false) := by
  refine ⟨fetchCalls_le_one k r a b hr hwin times hbound st, ?_⟩
  intro t tn r' st₀ hmiss hwinn
  have hm := fetchWithCache_miss t k (JSData.series []) st₀ hmiss
  have hlook : lookupStore k (fetchWithCache t k (JSData.series []) st₀).2.1
      = some (JSData.series [], t) := by
    rw [hm]
    exact lookupStore_setCachedData_self t k _ _
  have hhit := fetchWithCache_hit tn t k (JSData.series []) r' _ hlook
    (by decide) hwinn
  exact ⟨by rw [hm], by rw [hhit], by rw [hhit]⟩

/-- C5 witness: three calls at times 0, 1, 2 ms fetch a numeric result at
most once, and after fetching an empty series at time 0 a call at time 1
is served from the cache without refetching. -/
theorem c5_fetch_at_most_once_witness :
    (fetchCalls [0, 1, 2] "usd-historical" (JSData.num 5) []).2 ≤ 1 ∧
    (fetchWithCache 1 "usd-historical" (JSData.num 9)
        (fetchWithCache 0 "usd-historical" (JSData.series []) []).2.1).2.2
      = false :=
  ⟨(c5_fetch_at_most_once "usd-historical" (JSData.num 5) [] [0, 1, 2] 0 2
      (by decide) (by decide) (by decide)).1,
   ((c5_fetch_at_most_once "usd-historical" (JSData.num 5) [] [0, 1, 2] 0 2
      (by decide) (by decide) (by decide)).2 0 1 (JSData.num 9) []
      (by decide) (by decide)).2.2⟩

/-- Averaging a one-element series yields the element. -/
theorem calculateAverage_singleton (r : ℚ) : calculateAverage [r] = r := by
  simp [calculateAverage]

/-- Comparing a rate against itself always classifies as `"cloudy"`: for a
nonzero rate the difference ratio is `0`, and for a zero rate it is `NaN`,
whose threshold comparisons are both false. -/
theorem determineWeather_self (r : ℚ) : determineWeather r r = "cloudy" := by
  by_cases hr : r = 0
  · subst hr; decide
  · rw [determineWeather_eq_of_ne r r hr]
    have hz : (r - r) / r = 0 := by simp
    rw [hz]
    norm_num

/-- C6: `fetchHistoricalRates` never raises: a failed or unparseable
response yields the empty series; in a well-shaped response every day whose
entry is skipped by the validation (in particular any day without a numeric
value under the quote currency) is dropped without affecting the remaining
days, which are all kept in order. -/
theorem c6_historical_resilience :
    (∀ target, fetchHistoricalRates FetchOutcome.failure target = []) ∧
    (∀ (target : String) (days : List (String × JSON)),
      fetchHistoricalRates
          (FetchOutcome.success (JSON.obj [("rates", JSON.obj days)])) target
        = days.filterMap (fun day => dayValue target day.2)) ∧
    (∀ (target : String) (pre post : List (String × JSON)) (name : String)
        (d : JSON), dayValue target d = none →
      fetchHistoricalRates
          (FetchOutcome.success
            (JSON.obj [("rates", JSON.obj (pre ++ (name, d) :: post))])) target
        = fetchHistoricalRates
            (FetchOutcome.success
              (JSON.obj [("rates", JSON.obj (pre ++ post))])) target) ∧
    (∀ (target : String) (d : JSON),
      (¬∃ q : ℚ, getField d target = some (JSON.num q)) →
      dayValue target d = none) := by
  have h2 : ∀ (target : String) (days : List (String × JSON)),
      fetchHistoricalRates
          (FetchOutcome.success (JSON.obj [("rates", JSON.obj days)])) target
        = days.filterMap (fun day => dayValue target day.2) :=
    fun _ _ => rfl
  refine ⟨fun _ => rfl, h2, ?_, ?_⟩
  · intro target pre post name d hd
    rw [h2, h2]
    simp [List.filterMap_append, List.filterMap_cons, hd]
  · intro target d hd
    cases h1 : (!jsTruthy d || !typeofObject d) with
    | true => simp [dayValue, h1]
    | false =>
        rcases hf : getField d target with _ | v
        · simp [dayValue, h1, hf]
        · rcases v with _ | b | q | s | es | fs
          · simp [dayValue, h1, hf]
          · simp [dayValue, h1, hf]
          · exact absurd ⟨q, hf⟩ hd
          · simp [dayValue, h1, hf]
          · simp [dayValue, h1, hf]
          · simp [dayValue, h1, hf]

/-- C6 witness: a concrete response in which one day carries `null` is
extracted to the same series as the response without that day. -/
theorem c6_historical_resilience_witness :
    dayValue "EUR" JSON.null = none ∧
    fetchHistoricalRates
        (FetchOutcome.success (JSON.obj [("rates", JSON.obj
          ([("d1", JSON.obj [("EUR", JSON.num 3)])]
            ++ ("d2", JSON.null) :: []))])) "EUR"
      = fetchHistoricalRates
          (FetchOutcome.success (JSON.obj [("rates", JSON.obj
            ([("d1", JSON.obj [("EUR", JSON.num 3)])] ++ []))])) "EUR" :=
  ⟨rfl, c6_historical_resilience.2.2.1 "EUR"
    [("d1", JSON.obj [("EUR", JSON.num 3)])] [] "d2" JSON.null rfl⟩

/-- C7: when the current-rate fetch of either pair throws, the whole cycle
degrades to the single error outcome and neither pair's display fields are
rendered — the `ready` outcome is the only one carrying fields; and
`fetchCurrentRate` does propagate a failed fetch as an error to its
caller. -/
theorem c7_fatal_current_fetch (jc uc : Except Unit ℚ) (jh uh : List ℚ)
    (h : jc = Except.error () ∨ uc = Except.error ()) :
    initApp jc jh uc uh = AppOutcome.error ∧
    (∀ target, fetchCurrentRate FetchOutcome.failure target
        = Except.error ()) := by
  refine ⟨?_, fun _ => rfl⟩
  rcases h with rfl | rfl
  · cases uc <;> rfl
  · cases jc <;> rfl

/-- C7 witness: the JPY current fetch throws while the USD data is fully
available, and the cycle still reports the error outcome. -/
theorem c7_fatal_current_fetch_witness :
    initApp (Except.error ()) [2] (Except.ok 1) [3] = AppOutcome.error :=
  (c7_fatal_current_fetch (Except.error ()) (Except.ok 1) [2] [3]
    (Or.inl rfl)).1

/-- C8 counterexample: with an empty historical series and current rate `0`,
the fallback series is `[0]`, the average equals the current rate, but the
relative difference the code computes is `NaN` (`0/0`), not `0` — the
claimed `d = 0` fails at this input even though the classification is
still `"cloudy"`. -/
theorem c8_zero_rate_counterexample :
    calculateAverage [(0 : ℚ)] = 0 ∧
    jsDiff 0 (calculateAverage [(0 : ℚ)]) = JVal.nan ∧
    JVal.nan ≠ JVal.fin 0 ∧
    determineWeather 0 (calculateAverage [(0 : ℚ)]) = "cloudy" := by
  have h0 : calculateAverage [(0 : ℚ)] = 0 := calculateAverage_singleton 0
  refine ⟨h0, ?_, by decide, ?_⟩
  · rw [h0]
    simp [jsDiff]
  · rw [h0]
    exact determineWeather_self 0

/-- C8 (amended): a pair whose historical series is empty is averaged over
the fallback series `[currentRate]`, so the average equals the current rate
and the pair is classified `"cloudy"` regardless of the other pair's data;
the relative difference is `0` whenever the current rate is nonzero (at a
zero current rate it is `NaN`, and the threshold comparisons still yield
`"cloudy"`). -/
theorem c8_empty_series_cloudy :
    (∀ (jr ur : ℚ) (uh : List ℚ), ∃ usdFields,
      initApp (Except.ok jr) [] (Except.ok ur) uh
        = AppOutcome.ready
            (updateCurrencyDisplay "jpy" jr jr "cloudy") usdFields) ∧
    (∀ (jr ur : ℚ) (jh : List ℚ), ∃ jpyFields,
      initApp (Except.ok jr) jh (Except.ok ur) []
        = AppOutcome.ready jpyFields
            (updateCurrencyDisplay "usd" ur ur "cloudy")) ∧
    (∀ r : ℚ, calculateAverage [r] = r ∧ determineWeather r r = "cloudy") ∧
    (∀ r : ℚ, r ≠ 0 → jsDiff r (calculateAverage [r]) = JVal.fin 0) := by
  refine ⟨?_, ?_, ?_, ?_⟩
  · intro jr ur uh
    refine ⟨updateCurrencyDisplay "usd" ur
        (calculateAverage (if uh.length > 0 then uh else [ur]))
        (determineWeather ur
          (calculateAverage (if uh.length > 0 then uh else [ur]))), ?_⟩
    simp [initApp, calculateAverage_singleton, determineWeather_self]
  · intro jr ur jh
    refine ⟨updateCurrencyDisplay "jpy" jr
        (calculateAverage (if jh.length > 0 then jh else [jr]))
        (determineWeather jr
          (calculateAverage (if jh.length > 0 then jh else [jr]))), ?_⟩
    simp [initApp, calculateAverage_singleton, determineWeather_self]
  · exact fun r => ⟨calculateAverage_singleton r, determineWeather_self r⟩
  · intro r hr
    rw [calculateAverage_singleton]
    simp [jsDiff, hr]

/-- C8 witness: at a concrete nonzero current rate the fallback average
produces a zero relative difference. -/
theorem c8_empty_series_cloudy_witness :
    jsDiff 2 (calculateAverage [(2 : ℚ)]) = JVal.fin 0 :=
  c8_empty_series_cloudy.2.2.2 2 (by norm_num)

/-- C9: the displayed percentage difference is computed from the raw,
uninverted rates — it does not depend on the pair prefix — as
`((rate - avgRate) / avgRate) * 100` rounded to 2 decimals with a leading
`+` exactly when the difference is non-negative; when the average is `0`
the sentinel `N/A` is shown and the state tag is neutral. -/
theorem c9_percent_display (p : String) (r a : ℚ) (w : String) :
    ((updateCurrencyDisplay p r a w).diffText
        = (updateCurrencyDisplay "usd" r a w).diffText) ∧
    (a = 0 → (updateCurrencyDisplay p r a w).diffText = "N/A" ∧
      (updateCurrencyDisplay p r a w).tag = StateTag.neutral) ∧
    (a ≠ 0 → (updateCurrencyDisplay p r a w).diffText
        = (if 0 ≤ r - a then "+" else "")
            ++ toFixedQ 2 ((r - a) / a * 100) ++ "%") := by
  by_cases h : a = 0
  · subst h
    exact ⟨rfl, fun _ => ⟨rfl, rfl⟩, fun hn => absurd rfl hn⟩
  · refine ⟨?_, fun h0 => absurd h0 h, fun _ => ?_⟩
    · simp [updateCurrencyDisplay, h]
    · simp [updateCurrencyDisplay, h]

/-- C9 witness: the USD scenario of the specification — current `0.92`
against average `0.93` displays `-1.08%`, identically for both pair
prefixes and matching the raw-rate formula. -/
theorem c9_percent_display_witness :
    (updateCurrencyDisplay "jpy" (92 / 100) (93 / 100) "rainy").diffText
      = (updateCurrencyDisplay "usd" (92 / 100) (93 / 100) "rainy").diffText ∧
    (updateCurrencyDisplay "usd" (92 / 100) (93 / 100) "rainy").diffText
      = (if (0 : ℚ) ≤ 92 / 100 - 93 / 100 then "+" else "")
          ++ toFixedQ 2 ((92 / 100 - 93 / 100) / (93 / 100) * 100) ++ "%" :=
  ⟨(c9_percent_display "jpy" (92 / 100) (93 / 100) "rainy").1,
   (c9_percent_display "usd" (92 / 100) (93 / 100) "rainy").2.2
     (by norm_num)⟩
